import Mathlib

/-
Verification development for the pyconsole repository (src/pyconsole.py).

The Python console widget is shallow-embedded: the pure parts
(should_continue, history bookkeeping, namespace seeding, the cursor
arithmetic of the boundary guard) are translated directly into Lean
functions over lists and strings.  The Python runtime primitives used by
execute_command (compile, eval, exec, repr) do not belong to this
repository; they are abstracted as an oracle structure `Interp`, and the
control flow of execute_command (the nested try/except blocks, the
stdout/stderr redirection, the finally clause, transcript rendering) is
translated faithfully on top of that oracle.  Python exceptions carry a
class marker distinguishing SyntaxError, other subclasses of Exception,
and BaseException-only classes (such as SystemExit), because the source
code's handlers (`except SyntaxError`, `except Exception`) discriminate
exactly along those lines.
-/

/-- Python values, as far as the console observes them: the None
sentinel, numbers, strings, and callables kept abstract. -/
inductive PyVal where
  | pyNone
  | int (n : Int)
  | str (s : String)
  | builtin (name : String)
  | func (name : String)
deriving DecidableEq

/-- The shared namespace: a mapping from identifier to value, modelled
as an insertion-ordered association list (first match wins on lookup,
mirroring a dict in which each key occurs once). -/
abbrev Namespace := List (String × PyVal)

/-- Dictionary lookup (`namespace[key]`). -/
def nsLookup : Namespace → String → Option PyVal
  | [], _ => none
  | (k, v) :: t, key => if k = key then some v else nsLookup t key

/-- Dictionary membership (`key in namespace`). -/
def nsContains (ns : Namespace) (key : String) : Bool :=
  (nsLookup ns key).isSome

/-- The `defaults` dict of `_setup_default_namespace`, in source order. -/
def defaults : List (String × PyVal) :=
  [("__name__", PyVal.str "__console__"),
   ("__doc__", PyVal.pyNone),
   ("help", PyVal.builtin "help"),
   ("dir", PyVal.builtin "dir"),
   ("len", PyVal.builtin "len"),
   ("print", PyVal.builtin "print"),
   ("range", PyVal.builtin "range"),
   ("list", PyVal.builtin "list"),
   ("dict", PyVal.builtin "dict"),
   ("str", PyVal.builtin "str"),
   ("int", PyVal.builtin "int"),
   ("float", PyVal.builtin "float")]

/-- One iteration of the seeding loop: add the default binding only when
the key is not already present. -/
def addDefault (ns : Namespace) (kv : String × PyVal) : Namespace :=
  if nsContains ns kv.1 then ns else ns ++ [kv]

/-- `_setup_default_namespace`: iterate over `defaults.items()` adding
absent keys. -/
def setupDefaultNamespace (ns : Namespace) : Namespace :=
  defaults.foldl addDefault ns

/-- Characters treated as whitespace by Python's `str.strip()`. -/
def pyIsSpace (c : Char) : Bool :=
  c = ' ' || c = '\t' || c = '\n' || c = '\r' || c = '\x0b' || c = '\x0c'

/-- `str.strip()` on a character list. -/
def stripL (l : List Char) : List Char :=
  ((l.dropWhile pyIsSpace).reverse.dropWhile pyIsSpace).reverse

/-- `command.strip()`. -/
def pstrip (s : String) : String := String.mk (stripL s.data)

/-- `text.rstrip('\n\r')`, used when rendering captured output. -/
def rstripNL (s : String) : String :=
  String.mk ((s.data.reverse.dropWhile (fun c => c = '\n' || c = '\r')).reverse)

/-- `stripped.endswith(':')` expressed on the underlying characters. -/
def endsColon (l : List Char) : Bool :=
  match l.getLast? with
  | some c => c = ':'
  | none => false

/-- Quote characters recognised by `should_continue`. -/
def isQuote (c : Char) : Bool := c = '"' || c = '\x27'

/-- Opening brackets of the `brackets` dict. -/
def isOpen (c : Char) : Bool := c = '(' || c = '[' || c = '\x7b'

/-- Closing brackets (`brackets.values()`). -/
def isClose (c : Char) : Bool := c = ')' || c = ']' || c = '\x7d'

/-- The `brackets` dict: map an opening bracket to its closing partner. -/
def bracketClose (c : Char) : Option Char :=
  if c = '(' then some ')'
  else if c = '[' then some ']'
  else if c = '\x7b' then some '\x7d'
  else none

/-- Scanner state of `should_continue`: the stack of open brackets (top
at the head), the in-string flag, and the active quote character. -/
structure ScanState where
  stack : List Char
  inString : Bool
  stringChar : Option Char
deriving DecidableEq

/-- Handling of a closing bracket: pop only when it matches the top of
the stack, otherwise ignore it. -/
def closeStep (st : ScanState) (c : Char) : ScanState :=
  match st.stack with
  | [] => st
  | t :: r => if bracketClose t = some c then ⟨r, st.inString, st.stringChar⟩ else st

/-- One character of the `should_continue` scan, mirroring the source's
if/elif chain. -/
def scanStep (st : ScanState) (c : Char) : ScanState :=
  if isQuote c ∧ ¬ st.inString then ⟨st.stack, true, some c⟩
  else if some c = st.stringChar ∧ st.inString then ⟨st.stack, false, none⟩
  else if ¬ st.inString then
    if isOpen c then ⟨c :: st.stack, st.inString, st.stringChar⟩
    else if isClose c then closeStep st c
    else st
  else st

/-- Initial scanner state: empty stack, not inside a string. -/
def initScan : ScanState := ⟨[], false, none⟩

/-- The full left-to-right scan of `should_continue`. -/
def scanLine (l : List Char) : ScanState := l.foldl scanStep initScan

/-- `should_continue` on a character list: trailing colon forces true,
otherwise the bracket stack or an open string literal decides. -/
def shouldContinueL (l : List Char) : Bool :=
  if endsColon (stripL l) then true
  else decide (0 < (scanLine l).stack.length) || (scanLine l).inString

/-- `PythonConsoleWidget.should_continue`. -/
def shouldContinue (command : String) : Bool := shouldContinueL command.data

/-- The continuation scan as the specification words it: the in-string
state is consulted first (quotes toggle it via the active quote
character, with no escape handling), open brackets are pushed only
outside a string, and a closing bracket pops only a matching top. -/
def specStep (st : ScanState) (c : Char) : ScanState :=
  if st.inString then
    if st.stringChar = some c then ⟨st.stack, false, none⟩ else st
  else if isQuote c then ⟨st.stack, true, some c⟩
  else if isOpen c then ⟨c :: st.stack, st.inString, st.stringChar⟩
  else if isClose c then closeStep st c
  else st

/-- The specification's single scan over the line. -/
def specScan (l : List Char) : ScanState := l.foldl specStep initScan

/-- `needsContinuation` as the specification states it: true iff the
trimmed line ends with a colon, or the scan leaves the bracket stack
non-empty, or the scan ends inside a quoted literal. -/
def specNeedsContinuation (l : List Char) : Bool :=
  endsColon (stripL l) || !(specScan l).stack.isEmpty || (specScan l).inString

/-- Exception class marker: SyntaxError, any other proper subclass of
Exception, or a BaseException-only class (SystemExit,
KeyboardInterrupt, ...) which `except Exception` does not catch. -/
inductive ExcClass where
  | synErr
  | excOther
  | excBase
deriving DecidableEq

/-- A raised Python exception together with its rendered traceback. -/
structure PyExc where
  cls : ExcClass
  trace : String
deriving DecidableEq

/-- What `handle_exception` writes: `print(traceback.format_exc(),
file=sys.stderr)` emits the formatted trace plus a newline. -/
def excFmt (e : PyExc) : String := e.trace ++ "\n"

/-- Boolean test that an outcome surfaced no BaseException-only
exception (everything it raised, if anything, is catchable by
`except Exception`). -/
def notBase {α : Type} (r : Except PyExc α) : Bool :=
  match r with
  | .ok _ => true
  | .error e => decide (e.cls ≠ ExcClass.excBase)

/-- Result of `eval(code, namespace)`: the namespace after any
mutations, the text written to sys.stdout and sys.stderr while it ran,
and the produced value or the raised exception. -/
structure EvalResult where
  ns : Namespace
  out : String
  err : String
  val : Except PyExc PyVal

/-- Result of `exec(code, namespace)`. -/
structure ExecResult where
  ns : Namespace
  out : String
  err : String
  res : Except PyExc Unit

/-- Oracle for the Python runtime primitives used by execute_command.
`compileEval`/`compileExec` are `compile(command, '<console>', mode)`;
`evalRun`/`execRun` run the compiled command against a namespace;
`reprStr` is `repr`. -/
structure Interp where
  compileEval : String → Except PyExc Unit
  evalRun : String → Namespace → EvalResult
  compileExec : String → Except PyExc Unit
  execRun : String → Namespace → ExecResult
  reprStr : PyVal → String

/-- Where a sys stream currently points: the process's real stream or
the per-invocation StringIO capture installed by execute_command. -/
inductive Sink where
  | real
  | capture
deriving DecidableEq

/-- The pair (sys.stdout, sys.stderr). -/
structure Streams where
  out : Sink
  err : Sink
deriving DecidableEq

/-- Route one write through a sys stream into the capture buffer: the
capture grows exactly when the stream points at it. -/
def routeCap (sink : Sink) (txt cap : String) : String :=
  match sink with
  | .capture => cap ++ txt
  | .real => cap

/-- Route one write through a sys stream into the real stream: the real
stream grows exactly when the stream points at it. -/
def routeReal (sink : Sink) (txt real : String) : String :=
  match sink with
  | .capture => real
  | .real => real ++ txt

/-- Console state relevant to command execution: history list and
browse index, the shared namespace, the current sys stream targets, the
text accumulated on the real streams, the widget transcript, the
multiline buffer and continuation flag, and a ghost log of the commands
dispatched to execute_command. -/
structure ExecState where
  history : List String
  historyIndex : Int
  ns : Namespace
  streams : Streams
  realOut : String
  realErr : String
  transcript : String
  multiline : String
  inContinuation : Bool
  dispatchLog : List String

/-- `append_prompt`: emit the continuation prompt when in continuation
mode, the primary prompt otherwise. -/
def appendPrompt (st : ExecState) : ExecState :=
  { st with transcript := st.transcript ++ (if st.inContinuation then "... " else ">>> ") }

/-- History recording of execute_command (lines 216-219): append the
stripped command only when absent, then unconditionally reset the
browse index to the not-browsing sentinel -1. -/
def recordHistory (history : List String) (command : String) : List String × Int :=
  (if pstrip command ∈ history then history else history ++ [pstrip command], -1)

/-- Result of the protected region of execute_command: namespace,
capture buffers, real-stream text, and the exception escaping the
handlers, if any. -/
structure BodyResult where
  ns : Namespace
  so : String
  se : String
  realOut : String
  realErr : String
  propagated : Option PyExc

/-- The statement fallback (the body of `except SyntaxError`): compile
as 'exec' and run it, with its own `except Exception` handler feeding
handle_exception; exceptions outside the Exception hierarchy escape. -/
def stmtPath (I : Interp) (strm : Streams) (command : String) (ns : Namespace)
    (so se ro re : String) : BodyResult :=
  match I.compileExec command with
  | .ok _ =>
    let r := I.execRun command ns
    let so1 := routeCap strm.out r.out so
    let ro1 := routeReal strm.out r.out ro
    let se1 := routeCap strm.err r.err se
    let re1 := routeReal strm.err r.err re
    match r.res with
    | .ok _ => ⟨r.ns, so1, se1, ro1, re1, none⟩
    | .error e =>
      if e.cls = ExcClass.excBase then ⟨r.ns, so1, se1, ro1, re1, some e⟩
      else ⟨r.ns, so1, routeCap strm.err (excFmt e) se1, ro1,
            routeReal strm.err (excFmt e) re1, none⟩
  | .error e =>
    if e.cls = ExcClass.excBase then ⟨ns, so, se, ro, re, some e⟩
    else ⟨ns, so, routeCap strm.err (excFmt e) se, ro,
          routeReal strm.err (excFmt e) re, none⟩

/-- The protected region of execute_command: try the expression
attempt; `except SyntaxError` (covering both the compile and the eval
line) enters the statement fallback; `except Exception` feeds
handle_exception; anything else escapes. -/
def execBody (I : Interp) (strm : Streams) (command : String) (ns : Namespace)
    (ro re : String) : BodyResult :=
  match I.compileEval command with
  | .ok _ =>
    let r := I.evalRun command ns
    let so1 := routeCap strm.out r.out ""
    let ro1 := routeReal strm.out r.out ro
    let se1 := routeCap strm.err r.err ""
    let re1 := routeReal strm.err r.err re
    match r.val with
    | .ok v =>
      if v = PyVal.pyNone then ⟨r.ns, so1, se1, ro1, re1, none⟩
      else ⟨r.ns, routeCap strm.out (I.reprStr v ++ "\n") so1, se1,
            routeReal strm.out (I.reprStr v ++ "\n") ro1, re1, none⟩
    | .error e =>
      if e.cls = ExcClass.synErr then stmtPath I strm command r.ns so1 se1 ro1 re1
      else if e.cls = ExcClass.excBase then ⟨r.ns, so1, se1, ro1, re1, some e⟩
      else ⟨r.ns, so1, routeCap strm.err (excFmt e) se1, ro1,
            routeReal strm.err (excFmt e) re1, none⟩
  | .error e =>
    if e.cls = ExcClass.synErr then stmtPath I strm command ns "" "" ro re
    else if e.cls = ExcClass.excBase then ⟨ns, "", "", ro, re, some e⟩
    else ⟨ns, "", routeCap strm.err (excFmt e) "", ro,
          routeReal strm.err (excFmt e) re, none⟩

/-- What execute_command reports: the two capture buffers and the
exception that escaped it, if any. -/
structure ExecOutcome where
  stdoutCapture : String
  stderrCapture : String
  propagated : Option PyExc

/-- Rendering of one capture buffer (lines 258-266): skip empty
captures, strip trailing newline characters, and append the remainder
plus a single newline to the transcript. -/
def appendCapture (st : ExecState) (txt : String) : ExecState :=
  if txt = "" then st
  else
    if rstripNL txt = "" then st
    else { st with transcript := st.transcript ++ rstripNL txt ++ "\n" }

/-- `PythonConsoleWidget.execute_command`: early return on blank input;
record history; save and redirect sys.stdout/sys.stderr to fresh
captures; run the protected region; restore the streams in the finally
clause (also when an exception escapes); then render the captures and a
fresh prompt.  The command is also pushed on the ghost dispatch log. -/
def executeCommand (I : Interp) (st : ExecState) (command : String) :
    ExecState × ExecOutcome :=
  let st0 := { st with dispatchLog := st.dispatchLog ++ [command] }
  if pstrip command = "" then (appendPrompt st0, ⟨"", "", none⟩)
  else
    let hi := recordHistory st0.history command
    let st1 := { st0 with history := hi.1, historyIndex := hi.2 }
    let oldStrm := st1.streams
    let st2 := { st1 with streams := ⟨Sink.capture, Sink.capture⟩ }
    let body := execBody I st2.streams command st2.ns st2.realOut st2.realErr
    let st3 : ExecState :=
      { st2 with
        ns := body.ns
        realOut := body.realOut
        realErr := body.realErr
        streams := oldStrm }
    match body.propagated with
    | some e => (st3, ⟨body.so, body.se, some e⟩)
    | none =>
      let st4 := appendCapture st3 body.so
      let st5 := appendCapture st4 body.se
      (appendPrompt st5, ⟨body.so, body.se, none⟩)

/-- `PythonConsoleWidget.handle_enter`, taking the just-submitted line's
command text as input: echo the newline; in continuation mode append the
line to the multiline buffer and either execute it (on a blank line) or
keep continuing; otherwise consult should_continue and execute or
re-prompt.  An exception escaping execute_command aborts the remaining
statements, mirroring Python control flow. -/
def handleEnter (I : Interp) (st : ExecState) (command : String) :
    ExecState × Option PyExc :=
  let st1 := { st with transcript := st.transcript ++ "\n" }
  if st1.inContinuation then
    let st2 := { st1 with multiline := st1.multiline ++ "\n" ++ command }
    if pstrip command = "" then
      let r := executeCommand I st2 st2.multiline
      match r.2.propagated with
      | some e => (r.1, some e)
      | none => ({ r.1 with multiline := "", inContinuation := false }, none)
    else (appendPrompt st2, none)
  else
    if shouldContinue command then
      (appendPrompt { st1 with multiline := command, inContinuation := true }, none)
    else if pstrip command = "" then (appendPrompt st1, none)
    else
      let r := executeCommand I st1 command
      (r.1, r.2.propagated)

/-- History navigator state: the recorded entries, the browse index
(-1 = not browsing), the command text of the current input line, and
the saved draft (`self.current_command`). -/
structure HistState where
  entries : List String
  index : Int
  line : String
  draft : String
deriving DecidableEq

/-- `handle_history_up`: no-op on empty history; on first recall save
the draft and jump to the newest entry, otherwise step back with a
floor of 0; then show the selected entry. -/
def histUp (s : HistState) : HistState :=
  if s.entries = [] then s
  else
    let s1 := if s.index = -1 then
                { s with draft := s.line, index := (s.entries.length : Int) - 1 }
              else { s with index := max 0 (s.index - 1) }
    { s1 with line := s1.entries.getD s1.index.toNat "" }

/-- `handle_history_down`: no-op when not browsing or history empty;
step forward, and past the newest entry restore the draft and stop
browsing. -/
def histDown (s : HistState) : HistState :=
  if s.entries = [] ∨ s.index = -1 then s
  else
    if s.index + 1 ≥ (s.entries.length : Int) then
      { s with index := -1, line := s.draft }
    else
      { s with index := s.index + 1, line := (s.entries.getD (s.index + 1).toNat "") }

/-- The characters of a string literal. -/
def strL (s : String) : List Char := s.data

/-- The primary prompt ">>> ". -/
def promptL : List Char := strL ">>> "

/-- The continuation prompt "... ". -/
def contPromptL : List Char := strL "... "

/-- The text surface of the widget: its full text, the caret position
(offsets count the newline separators, as in QTextDocument), and the
continuation flag. -/
structure Widget where
  text : List Char
  cursor : Nat
  inContinuation : Bool
deriving DecidableEq

/-- `text.split('\n')`. -/
def splitLines : List Char → List (List Char)
  | [] => [[]]
  | c :: rest =>
    match splitLines rest with
    | [] => [[]]
    | h :: t => if c = '\n' then [] :: h :: t else (c :: h) :: t

/-- The line containing a caret offset (QTextCursor.LineUnderCursor):
an offset at the end of a line still belongs to that line. -/
def lineAt : List (List Char) → Nat → List Char
  | [], _ => []
  | [l], _ => l
  | l :: l2 :: ls, pos =>
    if pos ≤ l.length then l else lineAt (l2 :: ls) (pos - l.length - 1)

/-- `get_current_line_text`. -/
def currentLine (w : Widget) : List Char := lineAt (splitLines w.text) w.cursor

/-- `get_prompt_position`: offset just after the prompt on the last
line, or the end of the text when the last line carries no prompt. -/
def promptPosition (w : Widget) : Nat :=
  let last := (splitLines w.text).getLastD []
  if promptL.isPrefixOf last || contPromptL.isPrefixOf last then
    w.text.length - last.length +
      (if w.inContinuation then contPromptL.length else promptL.length)
  else w.text.length

/-- The Backspace branch of `keyPressEvent`: suppress the event when
the line is no longer than the active prompt; otherwise fall through to
the generic position guard, behind which the default editor behaviour
deletes the character before the caret. -/
def keyBackspace (w : Widget) : Widget :=
  let line := currentLine w
  let plen : Nat := if w.inContinuation then contPromptL.length else promptL.length
  if (promptL.isPrefixOf line || contPromptL.isPrefixOf line) ∧ line.length ≤ plen then w
  else if w.cursor ≥ promptPosition w then
    if w.cursor = 0 then w
    else ⟨w.text.take (w.cursor - 1) ++ w.text.drop w.cursor, w.cursor - 1,
          w.inContinuation⟩
  else w

/-- An ordinary printable key in `keyPressEvent`: the event reaches the
default editor (inserting at the caret) only when the caret sits at or
after the prompt position; otherwise it is dropped. -/
def keyInsert (w : Widget) (c : Char) : Widget :=
  if w.cursor ≥ promptPosition w then
    ⟨w.text.take w.cursor ++ [c] ++ w.text.drop w.cursor, w.cursor + 1,
     w.inContinuation⟩
  else w

/-- Does `s` end with `suff`? -/
def strEndsWith (s suff : String) : Bool :=
  List.isPrefixOf suff.data.reverse s.data.reverse

/-- A compile-time SyntaxError with the message the compiler produces. -/
def sSyn : PyExc := ⟨ExcClass.synErr, "SyntaxError: invalid syntax"⟩

/-- A SyntaxError raised at run time (e.g. by a call to eval inside the
evaluated expression). -/
def sRtSyn : PyExc := ⟨ExcClass.synErr, "Traceback: SyntaxError: invalid syntax"⟩

/-- A ZeroDivisionError: an ordinary subclass of Exception. -/
def sZero : PyExc := ⟨ExcClass.excOther, "Traceback: ZeroDivisionError: division by zero"⟩

/-- SystemExit: derives from BaseException but not from Exception. -/
def sExit : PyExc := ⟨ExcClass.excBase, "SystemExit"⟩

/-- An expression that prints and then raises SyntaxError at run time:
it compiles in eval mode and also parses as a statement. -/
def cSideEffect : String := "[print(\x27X\x27), eval(\x271+\x27)]"

/-- A statement raising SystemExit. -/
def cRaiseExit : String := "raise SystemExit"

/-- The multiline function definition of the end-to-end scenario, as
execute_command actually receives it. -/
def cDefF : String := "def f(x):\n    return x*2\n"

/-- A statement that writes to stdout. -/
def cPrintHi : String := "print(\x27hi\x27)"

/-- An expression raising ZeroDivisionError. -/
def cDiv : String := "1/0"

/-- A pure expression with value 4. -/
def cTwoPlusTwo : String := "2+2"

/-- Oracle behaviour of the Python runtime on the handful of concrete
commands exercised by the concrete scenarios: eval-mode compilation
succeeds only for genuine expressions, eval and exec behave as CPython
does on these inputs, and everything else is treated as a statement. -/
def demoInterp : Interp where
  compileEval c :=
    if c = cSideEffect ∨ c = cDiv ∨ c = cTwoPlusTwo then .ok () else .error sSyn
  evalRun c ns :=
    if c = cSideEffect then ⟨ns, "X\n", "", .error sRtSyn⟩
    else if c = cDiv then ⟨ns, "", "", .error sZero⟩
    else if c = cTwoPlusTwo then ⟨ns, "", "", .ok (PyVal.int 4)⟩
    else ⟨ns, "", "", .error sSyn⟩
  compileExec _ := .ok ()
  execRun c ns :=
    if c = cSideEffect then ⟨ns, "X\n", "", .error sRtSyn⟩
    else if c = cRaiseExit then ⟨ns, "", "", .error sExit⟩
    else if c = cDefF then ⟨ns ++ [("f", PyVal.func "f")], "", "", .ok ()⟩
    else if c = cPrintHi then ⟨ns, "hi\n", "", .ok ()⟩
    else ⟨ns, "", "", .ok ()⟩
  reprStr v :=
    match v with
    | .pyNone => "None"
    | .int n => toString n
    | .str s => "\x27" ++ s ++ "\x27"
    | .builtin n => n
    | .func n => n

/-- Console state right after construction with an empty caller
namespace. -/
def startState : ExecState :=
  { history := [], historyIndex := -1, ns := setupDefaultNamespace [],
    streams := ⟨Sink.real, Sink.real⟩, realOut := "", realErr := "",
    transcript := "", multiline := "", inContinuation := false,
    dispatchLog := [] }

/-- End-to-end scenario, step 1: submit `def f(x):`. -/
def c5state1 : ExecState := (handleEnter demoInterp startState "def f(x):").1

/-- End-to-end scenario, step 2: submit the indented body line. -/
def c5state2 : ExecState := (handleEnter demoInterp c5state1 "    return x*2").1

/-- End-to-end scenario, step 3: submit the terminating blank line. -/
def c5state3 : ExecState := (handleEnter demoInterp c5state2 "").1

/-- The transcript text before the prompt on the failing backspace
input: a primary prompt followed by one typed character. -/
def w4 : Widget := ⟨strL ">>> x", 4, false⟩

lemma appendPrompt_streams (st : ExecState) : (appendPrompt st).streams = st.streams := rfl

lemma appendPrompt_realOut (st : ExecState) : (appendPrompt st).realOut = st.realOut := rfl

lemma appendPrompt_realErr (st : ExecState) : (appendPrompt st).realErr = st.realErr := rfl

lemma appendPrompt_ns (st : ExecState) : (appendPrompt st).ns = st.ns := rfl

lemma appendCapture_streams (st : ExecState) (t : String) :
    (appendCapture st t).streams = st.streams := by
  unfold appendCapture; split_ifs <;> rfl

lemma appendCapture_realOut (st : ExecState) (t : String) :
    (appendCapture st t).realOut = st.realOut := by
  unfold appendCapture; split_ifs <;> rfl

lemma appendCapture_realErr (st : ExecState) (t : String) :
    (appendCapture st t).realErr = st.realErr := by
  unfold appendCapture; split_ifs <;> rfl

lemma appendCapture_ns (st : ExecState) (t : String) :
    (appendCapture st t).ns = st.ns := by
  unfold appendCapture; split_ifs <;> rfl

lemma scanStep_eq_specStep (st : ScanState) (c : Char) : scanStep st c = specStep st c := by
  unfold scanStep specStep
  by_cases h1 : st.inString
  · by_cases h3 : st.stringChar = some c
    · simp [h1, h3]
    · have h3' : ¬ (some c = st.stringChar) := fun h => h3 h.symm
      simp [h1, h3, h3']
  · simp [h1]

lemma scanLine_eq_specScan (l : List Char) : scanLine l = specScan l := by
  unfold scanLine specScan
  have h : scanStep = specStep := by
    funext st c
    exact scanStep_eq_specStep st c
  rw [h]

/-- C2: should_continue returns true exactly when the trimmed line ends
with a colon, or the single left-to-right scan described by the
specification (quotes toggling the in-string flag with the active quote
character and no escape handling, open brackets pushed only outside a
string, a matching closing bracket popping the top and a mismatched one
ignored) leaves the bracket stack non-empty or ends inside a quoted
literal. -/
theorem claim2_thm (line : String) :
    shouldContinue line = specNeedsContinuation line.data := by
  unfold shouldContinue shouldContinueL specNeedsContinuation
  simp only [scanLine_eq_specScan]
  by_cases he : endsColon (stripL line.data)
  · simp [he]
  · simp only [he, if_false, Bool.false_or]
    cases hs : (specScan line.data).stack <;> simp [hs]

/-- C4: the code contradicts the boundary invariant.  With the
transcript ">>> x" and the caret at offset 4 (immediately after the
prompt), the prompt position is 4, yet one Backspace deletes the
character at offset 3 — the space inside the prompt — leaving ">>>x",
so the guard's own goal of never erasing the prompt is violated. -/
theorem claim4_thm :
    promptPosition w4 = 4 ∧
    keyBackspace w4 = ⟨strL ">>>x", 3, false⟩ ∧
    List.take 4 (keyBackspace w4).text ≠ promptL := by
  decide

/-- C6: with entries ["a","b","c"] and not browsing, three recalls of
the previous entry show "c", "b", "a"; a fourth stays at "a"; three
recalls of the next entry show "b", "c", and then restore the
pre-browsing draft and leave the browsing state. -/
theorem claim6_thm (l0 d : String) :
    (histUp ⟨["a", "b", "c"], -1, l0, d⟩).line = "c" ∧
    (histUp (histUp ⟨["a", "b", "c"], -1, l0, d⟩)).line = "b" ∧
    (histUp (histUp (histUp ⟨["a", "b", "c"], -1, l0, d⟩))).line = "a" ∧
    (histUp (histUp (histUp (histUp ⟨["a", "b", "c"], -1, l0, d⟩)))).line = "a" ∧
    (histDown (histUp (histUp (histUp (histUp
        ⟨["a", "b", "c"], -1, l0, d⟩))))).line = "b" ∧
    (histDown (histDown (histUp (histUp (histUp (histUp
        ⟨["a", "b", "c"], -1, l0, d⟩)))))).line = "c" ∧
    (histDown (histDown (histDown (histUp (histUp (histUp (histUp
        ⟨["a", "b", "c"], -1, l0, d⟩))))))).line = l0 ∧
    (histDown (histDown (histDown (histUp (histUp (histUp (histUp
        ⟨["a", "b", "c"], -1, l0, d⟩))))))).index = -1 := by
  have h1 : histUp ⟨["a", "b", "c"], -1, l0, d⟩ = ⟨["a", "b", "c"], 2, "c", l0⟩ := rfl
  have h2 : histUp (⟨["a", "b", "c"], 2, "c", l0⟩ : HistState)
      = ⟨["a", "b", "c"], 1, "b", l0⟩ := rfl
  have h3 : histUp (⟨["a", "b", "c"], 1, "b", l0⟩ : HistState)
      = ⟨["a", "b", "c"], 0, "a", l0⟩ := rfl
  have h4 : histUp (⟨["a", "b", "c"], 0, "a", l0⟩ : HistState)
      = ⟨["a", "b", "c"], 0, "a", l0⟩ := rfl
  have h5 : histDown (⟨["a", "b", "c"], 0, "a", l0⟩ : HistState)
      = ⟨["a", "b", "c"], 1, "b", l0⟩ := rfl
  have h6 : histDown (⟨["a", "b", "c"], 1, "b", l0⟩ : HistState)
      = ⟨["a", "b", "c"], 2, "c", l0⟩ := rfl
  have h7 : histDown (⟨["a", "b", "c"], 2, "c", l0⟩ : HistState)
      = ⟨["a", "b", "c"], -1, l0, l0⟩ := rfl
  rw [h1, h2, h3, h4, h5, h6, h7]
  exact ⟨rfl, rfl, rfl, rfl, rfl, rfl, rfl, rfl⟩

/-- C7: recording a command (already in trimmed form, as execute hands
it over) that is not yet in the history appends it at the end; a second
record of the same command changes nothing, so the entries hold exactly
one copy in the position it first occupied, and the browse index is
reset to the not-browsing sentinel by every record. -/
theorem claim7_thm (h : List String) (c : String) (hs : pstrip c = c) (hm : c ∉ h) :
    (recordHistory h c).1 = h ++ [c] ∧
    (recordHistory h c).2 = -1 ∧
    (recordHistory (recordHistory h c).1 c).1 = h ++ [c] ∧
    (recordHistory (recordHistory h c).1 c).2 = -1 ∧
    List.count c (recordHistory (recordHistory h c).1 c).1 = 1 := by
  have h1 : (recordHistory h c).1 = h ++ [c] := by
    simp [recordHistory, hs, hm]
  have hmem : c ∈ h ++ [c] := by simp
  have h2 : (recordHistory (h ++ [c]) c).1 = h ++ [c] := by
    simp [recordHistory, hs, hmem]
  have hcount : List.count c (h ++ [c]) = 1 := by
    rw [List.count_append]
    rw [List.count_eq_zero.mpr hm]
    simp
  refine ⟨h1, rfl, ?_, rfl, ?_⟩
  · rw [h1]; exact h2
  · rw [h1, h2]; exact hcount

/-- C7 witness: recording "y" twice over history ["x"]. -/
theorem claim7_witness :
    (recordHistory ["x"] "y").1 = ["x"] ++ ["y"] ∧
    (recordHistory ["x"] "y").2 = -1 ∧
    (recordHistory (recordHistory ["x"] "y").1 "y").1 = ["x"] ++ ["y"] ∧
    (recordHistory (recordHistory ["x"] "y").1 "y").2 = -1 ∧
    List.count "y" (recordHistory (recordHistory ["x"] "y").1 "y").1 = 1 :=
  claim7_thm ["x"] "y" (by decide) (by decide)

/-- C8 counterexample: with transcript ">>> " and the caret at offset
0 (before the boundary), an ordinary character event is dropped: the
text is unchanged and the character does not appear at the end of the
transcript, contradicting the claimed caret-redirect behaviour. -/
theorem claim8_counterexample :
    keyInsert ⟨strL ">>> ", 0, false⟩ 'a' = ⟨strL ">>> ", 0, false⟩ ∧
    (keyInsert ⟨strL ">>> ", 0, false⟩ 'a').text ≠ strL ">>> a" := by
  decide

/-- C8 (amended): an insertion key event whose caret position is before
the boundary offset is suppressed entirely — the widget state is
unchanged; no caret move to the end and no insertion takes place. -/
theorem claim8_thm (w : Widget) (ch : Char) (hpos : w.cursor < promptPosition w) :
    keyInsert w ch = w := by
  unfold keyInsert
  rw [if_neg (by omega)]

/-- C8 witness: the amended theorem applied at caret offset 2 of
">>> ", whose boundary offset is 4. -/
theorem claim8_witness :
    keyInsert ⟨strL ">>> ", 2, false⟩ 'b' = ⟨strL ">>> ", 2, false⟩ :=
  claim8_thm ⟨strL ">>> ", 2, false⟩ 'b' (by decide)

lemma nsLookup_append_some {a : Namespace} {k : String} {v : PyVal} (b : Namespace)
    (h : nsLookup a k = some v) : nsLookup (a ++ b) k = some v := by
  induction a with
  | nil => simp [nsLookup] at h
  | cons p t ih =>
    by_cases hp : p.1 = k
    · simpa [nsLookup, hp] using h
    · rw [List.cons_append]
      simp only [nsLookup, hp, if_false]
      exact ih (by simpa [nsLookup, hp] using h)

lemma nsLookup_append_self {a : Namespace} {k : String} (v : PyVal)
    (h : nsLookup a k = none) : nsLookup (a ++ [(k, v)]) k = some v := by
  induction a with
  | nil => simp [nsLookup]
  | cons p t ih =>
    by_cases hp : p.1 = k
    · simp [nsLookup, hp] at h
    · rw [List.cons_append]
      simp only [nsLookup, hp, if_false]
      exact ih (by simpa [nsLookup, hp] using h)

lemma nsLookup_append_none {a : Namespace} {k : String} (p : String × PyVal)
    (h : nsLookup a k = none) (hne : p.1 ≠ k) : nsLookup (a ++ [p]) k = none := by
  induction a with
  | nil => simp [nsLookup, hne]
  | cons q t ih =>
    by_cases hq : q.1 = k
    · simp [nsLookup, hq] at h
    · rw [List.cons_append]
      simp only [nsLookup, hq, if_false]
      exact ih (by simpa [nsLookup, hq] using h)

lemma addDefault_some {ns : Namespace} {k : String} {v : PyVal} (kv : String × PyVal)
    (h : nsLookup ns k = some v) : nsLookup (addDefault ns kv) k = some v := by
  unfold addDefault
  split
  · exact h
  · exact nsLookup_append_some _ h

lemma foldlAdd_some {k : String} {v : PyVal} :
    ∀ (l : List (String × PyVal)) (ns : Namespace),
      nsLookup ns k = some v → nsLookup (l.foldl addDefault ns) k = some v := by
  intro l
  induction l with
  | nil => intro ns h; simpa using h
  | cons d t ih =>
    intro ns h
    rw [List.foldl_cons]
    exact ih _ (addDefault_some d h)

lemma addDefault_inserts {ns : Namespace} {k : String} (v : PyVal)
    (h : nsLookup ns k = none) : nsLookup (addDefault ns (k, v)) k = some v := by
  unfold addDefault
  have : nsContains ns k = false := by simp [nsContains, h]
  rw [this]
  simp only [Bool.false_eq_true, if_false]
  exact nsLookup_append_self v h

lemma addDefault_keeps_none {ns : Namespace} {k : String} (kv : String × PyVal)
    (h : nsLookup ns k = none) (hne : kv.1 ≠ k) :
    nsLookup (addDefault ns kv) k = none := by
  unfold addDefault
  split
  · exact h
  · exact nsLookup_append_none kv h hne

/-- C10: constructing the console seeds, beyond the ten listed
built-ins, the two entries __name__ = '__console__' and __doc__ = None;
each default (these two included) is added only when the caller-supplied
namespace lacks the key, and no caller-supplied binding is ever
overwritten. -/
theorem claim10_thm (ns : Namespace) :
    (nsLookup ns "__name__" = none →
      nsLookup (setupDefaultNamespace ns) "__name__" = some (PyVal.str "__console__")) ∧
    (nsLookup ns "__doc__" = none →
      nsLookup (setupDefaultNamespace ns) "__doc__" = some PyVal.pyNone) ∧
    (∀ k v, nsLookup ns k = some v → nsLookup (setupDefaultNamespace ns) k = some v) := by
  refine ⟨?_, ?_, ?_⟩
  · intro h
    unfold setupDefaultNamespace defaults
    rw [List.foldl_cons]
    exact foldlAdd_some _ _ (addDefault_inserts _ h)
  · intro h
    unfold setupDefaultNamespace defaults
    rw [List.foldl_cons, List.foldl_cons]
    refine foldlAdd_some _ _ (addDefault_inserts _ ?_)
    exact addDefault_keeps_none _ h (by decide)
  · intro k v h
    exact foldlAdd_some _ _ h

/-- C10 witness: over the caller namespace [("x", 1)], the seeds are
added and the caller binding survives. -/
theorem claim10_witness :
    nsLookup (setupDefaultNamespace [("x", PyVal.int 1)]) "__name__"
        = some (PyVal.str "__console__") ∧
    nsLookup (setupDefaultNamespace [("x", PyVal.int 1)]) "__doc__"
        = some PyVal.pyNone ∧
    nsLookup (setupDefaultNamespace [("x", PyVal.int 1)]) "x" = some (PyVal.int 1) :=
  ⟨(claim10_thm [("x", PyVal.int 1)]).1 rfl,
   (claim10_thm [("x", PyVal.int 1)]).2.1 rfl,
   (claim10_thm [("x", PyVal.int 1)]).2.2 "x" (PyVal.int 1) rfl⟩

/-- C5 counterexample: after submitting "def f(x):", the indented body
line, and the terminating blank line, the command actually dispatched
to execute_command is "def f(x):\n    return x*2\n" — the blank
terminator line is appended to the pending command before dispatch, so
the dispatched string is not the claimed "def f(x):\n    return x*2";
moreover the prompt rendered afterwards is the continuation prompt, not
the primary one, because execute_command emits the prompt before
handle_enter clears the continuation flag. -/
theorem claim5_counterexample :
    c5state3.dispatchLog = ["def f(x):\n    return x*2\n"] ∧
    c5state3.dispatchLog ≠ ["def f(x):\n    return x*2"] ∧
    strEndsWith c5state3.transcript ">>> " = false := by
  decide

/-- C5 (amended): submitting "def f(x):" enters continuation with a
continuation prompt, the indented body line stays in continuation, and
the blank line dispatches exactly "def f(x):\n    return x*2\n" (the
terminator contributes a trailing line break), defines f in the shared
namespace, records the trimmed command in history, clears the pending
multiline command and returns to the Ready state — but the prompt
rendered after execution is the continuation prompt. -/
theorem claim5_thm :
    c5state1.inContinuation = true ∧
    strEndsWith c5state1.transcript "... " = true ∧
    c5state2.inContinuation = true ∧
    c5state2.multiline = "def f(x):\n    return x*2" ∧
    c5state3.dispatchLog = ["def f(x):\n    return x*2\n"] ∧
    nsLookup c5state3.ns "f" = some (PyVal.func "f") ∧
    c5state3.history = ["def f(x):\n    return x*2"] ∧
    c5state3.multiline = "" ∧
    c5state3.inContinuation = false ∧
    strEndsWith c5state3.transcript "... " = true := by
  decide

lemma stmtPath_real (I : Interp) (c : String) (ns : Namespace) (so se ro re : String) :
    (stmtPath I ⟨Sink.capture, Sink.capture⟩ c ns so se ro re).realOut = ro ∧
    (stmtPath I ⟨Sink.capture, Sink.capture⟩ c ns so se ro re).realErr = re := by
  unfold stmtPath
  cases hce : I.compileExec c with
  | ok u =>
    cases hr : (I.execRun c ns).res with
    | ok u2 => simp [hr, routeReal]
    | error e2 =>
      by_cases hb : e2.cls = ExcClass.excBase <;> simp [hr, hb, routeReal]
  | error e =>
    by_cases hb : e.cls = ExcClass.excBase <;> simp [hb, routeReal]

lemma execBody_real (I : Interp) (c : String) (ns : Namespace) (ro re : String) :
    (execBody I ⟨Sink.capture, Sink.capture⟩ c ns ro re).realOut = ro ∧
    (execBody I ⟨Sink.capture, Sink.capture⟩ c ns ro re).realErr = re := by
  unfold execBody
  cases hce : I.compileEval c with
  | ok u =>
    cases hv : (I.evalRun c ns).val with
    | ok v =>
      by_cases hn : v = PyVal.pyNone <;> simp [hv, hn, routeReal]
    | error e =>
      by_cases hs : e.cls = ExcClass.synErr
      · simp only [hv, hs, if_true, routeReal]
        exact stmtPath_real I c (I.evalRun c ns).ns _ _ ro re
      · by_cases hb : e.cls = ExcClass.excBase <;> simp [hv, hs, hb, routeReal]
  | error e =>
    by_cases hs : e.cls = ExcClass.synErr
    · simp only [hs, if_true]
      exact stmtPath_real I c ns "" "" ro re
    · by_cases hb : e.cls = ExcClass.excBase <;> simp [hs, hb, routeReal]

/-- C9: execute_command restores the sys stream targets that were in
effect before the call, unconditionally — also when an exception
escapes the handlers — and nothing the executed code writes reaches the
real standard streams: in particular, in the statement path the text
the command writes to its standard output lands in the per-invocation
capture buffer. -/
theorem claim9_thm (I : Interp) (st : ExecState) (c : String) :
    (executeCommand I st c).1.streams = st.streams ∧
    (executeCommand I st c).1.realOut = st.realOut ∧
    (executeCommand I st c).1.realErr = st.realErr ∧
    (∀ e, pstrip c ≠ "" → I.compileEval c = Except.error e →
      e.cls = ExcClass.synErr → I.compileExec c = Except.ok () →
      (executeCommand I st c).2.stdoutCapture = (I.execRun c st.ns).out) := by
  have hreal := execBody_real I c st.ns st.realOut st.realErr
  have key : (executeCommand I st c).1.streams = st.streams ∧
      (executeCommand I st c).1.realOut = st.realOut ∧
      (executeCommand I st c).1.realErr = st.realErr := by
    by_cases h0 : pstrip c = ""
    · simp [executeCommand, h0, appendPrompt]
    · rcases hp : (execBody I ⟨Sink.capture, Sink.capture⟩ c st.ns
          st.realOut st.realErr).propagated with _ | e
      · simp [executeCommand, h0, hp, appendCapture_streams, appendCapture_realOut,
              appendCapture_realErr, appendPrompt_streams, appendPrompt_realOut,
              appendPrompt_realErr, hreal.1, hreal.2]
      · simp [executeCommand, h0, hp, hreal.1, hreal.2]
  refine ⟨key.1, key.2.1, key.2.2, ?_⟩
  intro e h0 h1 hs h2
  cases hr : (I.execRun c st.ns).res with
  | ok u =>
    simp [executeCommand, h0, execBody, h1, hs, stmtPath, h2, hr, routeCap]
  | error e2 =>
    by_cases hb : e2.cls = ExcClass.excBase <;>
      simp [executeCommand, h0, execBody, h1, hs, stmtPath, h2, hr, hb, routeCap]

/-- C9 witness: running print('hi') leaves the stream targets as they
were and the written text appears in the stdout capture. -/
theorem claim9_witness :
    (executeCommand demoInterp startState cPrintHi).1.streams = startState.streams ∧
    (executeCommand demoInterp startState cPrintHi).2.stdoutCapture = "hi\n" :=
  ⟨(claim9_thm demoInterp startState cPrintHi).1,
   (claim9_thm demoInterp startState cPrintHi).2.2.2 sSyn (by decide) rfl rfl rfl⟩

/-- C1 (amended): for a non-blank command the expression attempt runs
first: when eval-mode compilation succeeds and evaluation returns a
value other than the None sentinel, the repr of the value is printed to
the captured standard output and the shared namespace carries the
evaluation's mutations; when eval-mode compilation is rejected with a
SyntaxError the command is re-run under statement semantics; a runtime
error of any class other than SyntaxError during the expression attempt
does not trigger the statement fallback (it is handled in place) — but
the fallback is keyed on the exception class SyntaxError, not on the
compile step, because the handler's scope also covers evaluation. -/
theorem claim1_thm (I : Interp) (st : ExecState) (c : String) :
    (∀ v, pstrip c ≠ "" → I.compileEval c = Except.ok () →
      (I.evalRun c st.ns).val = Except.ok v → v ≠ PyVal.pyNone →
      (executeCommand I st c).2.stdoutCapture
          = (I.evalRun c st.ns).out ++ (I.reprStr v ++ "\n") ∧
      (executeCommand I st c).1.ns = (I.evalRun c st.ns).ns ∧
      (executeCommand I st c).2.propagated = none) ∧
    (∀ e, pstrip c ≠ "" → I.compileEval c = Except.error e →
      e.cls = ExcClass.synErr → I.compileExec c = Except.ok () →
      (executeCommand I st c).1.ns = (I.execRun c st.ns).ns ∧
      (executeCommand I st c).2.stdoutCapture = (I.execRun c st.ns).out) ∧
    (∀ e, pstrip c ≠ "" → I.compileEval c = Except.ok () →
      (I.evalRun c st.ns).val = Except.error e → e.cls = ExcClass.excOther →
      (executeCommand I st c).2.stdoutCapture = (I.evalRun c st.ns).out ∧
      (executeCommand I st c).2.stderrCapture = (I.evalRun c st.ns).err ++ excFmt e ∧
      (executeCommand I st c).1.ns = (I.evalRun c st.ns).ns ∧
      (executeCommand I st c).2.propagated = none) ∧
    (∀ e, pstrip c ≠ "" → I.compileEval c = Except.error e →
      e.cls = ExcClass.excOther →
      (executeCommand I st c).2.stdoutCapture = "" ∧
      (executeCommand I st c).2.stderrCapture = excFmt e ∧
      (executeCommand I st c).1.ns = st.ns ∧
      (executeCommand I st c).2.propagated = none) := by
  refine ⟨?_, ?_, ?_, ?_⟩
  · intro v h0 h1 h2 h3
    simp [executeCommand, h0, execBody, h1, h2, h3, routeCap, routeReal,
          appendCapture_ns, appendPrompt_ns]
  · intro e h0 h1 hs h2
    cases hr : (I.execRun c st.ns).res with
    | ok u =>
      simp [executeCommand, h0, execBody, h1, hs, stmtPath, h2, hr, routeCap,
            routeReal, appendCapture_ns, appendPrompt_ns]
    | error e2 =>
      by_cases hb : e2.cls = ExcClass.excBase <;>
        simp [executeCommand, h0, execBody, h1, hs, stmtPath, h2, hr, hb, routeCap,
              routeReal, appendCapture_ns, appendPrompt_ns]
  · intro e h0 h1 h2 hcls
    have hs : e.cls ≠ ExcClass.synErr := by rw [hcls]; decide
    have hb : e.cls ≠ ExcClass.excBase := by rw [hcls]; decide
    simp [executeCommand, h0, execBody, h1, h2, hs, hb, routeCap, routeReal,
          appendCapture_ns, appendPrompt_ns]
  · intro e h0 h1 hcls
    have hs : e.cls ≠ ExcClass.synErr := by rw [hcls]; decide
    have hb : e.cls ≠ ExcClass.excBase := by rw [hcls]; decide
    simp [executeCommand, h0, execBody, h1, hs, hb, routeCap, routeReal,
          appendCapture_ns, appendPrompt_ns]

/-- C1 counterexample: the command [print('X'), eval('1+')] compiles in
eval mode (so no syntax-level rejection happened), its evaluation then
raises a SyntaxError at run time — a runtime error — and yet the
statement fallback runs: the stdout capture shows the print side effect
twice, once from the expression attempt and once from the re-execution
under statement semantics, refuting the claim that a runtime error
during the expression attempt never triggers the fallback. -/
theorem claim1_counterexample :
    demoInterp.compileEval cSideEffect = Except.ok () ∧
    (demoInterp.evalRun cSideEffect startState.ns).val = Except.error sRtSyn ∧
    (executeCommand demoInterp startState cSideEffect).2.stdoutCapture = "X\nX\n" ∧
    (executeCommand demoInterp startState cSideEffect).2.stdoutCapture
        ≠ (demoInterp.evalRun cSideEffect startState.ns).out := by
  exact ⟨rfl, rfl, rfl, by decide⟩

/-- C1 witness: evaluating 2+2 echoes repr(4) into the stdout capture;
evaluating 1/0 (a non-SyntaxError runtime failure of the expression
attempt) renders the trace on the stderr capture without reaching the
statement fallback and without propagating. -/
theorem claim1_witness :
    (executeCommand demoInterp startState cTwoPlusTwo).2.stdoutCapture = "4\n" ∧
    (executeCommand demoInterp startState cDiv).2.stderrCapture = excFmt sZero ∧
    (executeCommand demoInterp startState cDiv).2.propagated = none := by
  refine ⟨?_, ?_, ?_⟩
  · exact ((claim1_thm demoInterp startState cTwoPlusTwo).1 (PyVal.int 4)
      (by decide) rfl rfl (by decide)).1
  · exact ((claim1_thm demoInterp startState cDiv).2.2.1 sZero
      (by decide) rfl rfl rfl).2.1
  · exact ((claim1_thm demoInterp startState cDiv).2.2.1 sZero
      (by decide) rfl rfl rfl).2.2.2

lemma stmtPath_propagated_none (I : Interp) (strm : Streams) (c : String)
    (ns : Namespace) (so se ro re : String)
    (h3 : notBase (I.compileExec c) = true)
    (h4 : notBase (I.execRun c ns).res = true) :
    (stmtPath I strm c ns so se ro re).propagated = none := by
  unfold stmtPath
  cases hce : I.compileExec c with
  | ok u =>
    cases hr : (I.execRun c ns).res with
    | ok u2 => simp [hr]
    | error e2 =>
      rw [hr] at h4
      simp only [notBase, decide_eq_true_eq] at h4
      simp [hr, h4]
  | error e =>
    rw [hce] at h3
    simp only [notBase, decide_eq_true_eq] at h3
    simp [h3]

lemma execBody_propagated_none (I : Interp) (strm : Streams) (c : String)
    (ns : Namespace) (ro re : String)
    (h2 : notBase (I.evalRun c ns).val = true)
    (h3 : notBase (I.compileExec c) = true)
    (h4 : notBase (I.execRun c ns).res = true)
    (h5 : notBase (I.execRun c (I.evalRun c ns).ns).res = true)
    (h1 : notBase (I.compileEval c) = true) :
    (execBody I strm c ns ro re).propagated = none := by
  unfold execBody
  cases hce : I.compileEval c with
  | ok u =>
    cases hv : (I.evalRun c ns).val with
    | ok v => by_cases hn : v = PyVal.pyNone <;> simp [hv, hn]
    | error e =>
      rw [hv] at h2
      simp only [notBase, decide_eq_true_eq] at h2
      by_cases hs : e.cls = ExcClass.synErr
      · simp only [hv, hs, if_true]
        exact stmtPath_propagated_none I strm c _ _ _ _ _ h3 h5
      · simp [hv, hs, h2]
  | error e =>
    rw [hce] at h1
    simp only [notBase, decide_eq_true_eq] at h1
    by_cases hs : e.cls = ExcClass.synErr
    · simp only [hs, if_true]
      exact stmtPath_propagated_none I strm c ns "" "" ro re h3 h4
    · simp [hs, h1]

/-- C3 (amended): when nothing raised during the call lies outside the
Exception hierarchy, no exception escapes execute_command; in
particular a non-SyntaxError runtime failure of the expression attempt
is caught and its formatted diagnostic trace is written to the captured
standard error.  Failures outside the Exception hierarchy (SystemExit,
KeyboardInterrupt) are not covered by the source's `except` clauses and
do escape. -/
theorem claim3_thm (I : Interp) (st : ExecState) (c : String) :
    (notBase (I.compileEval c) = true →
     notBase (I.evalRun c st.ns).val = true →
     notBase (I.compileExec c) = true →
     notBase (I.execRun c st.ns).res = true →
     notBase (I.execRun c (I.evalRun c st.ns).ns).res = true →
     (executeCommand I st c).2.propagated = none) ∧
    (∀ e, pstrip c ≠ "" → I.compileEval c = Except.ok () →
      (I.evalRun c st.ns).val = Except.error e → e.cls = ExcClass.excOther →
      (executeCommand I st c).2.stderrCapture = (I.evalRun c st.ns).err ++ excFmt e ∧
      (executeCommand I st c).2.propagated = none) := by
  constructor
  · intro h1 h2 h3 h4 h5
    by_cases h0 : pstrip c = ""
    · simp [executeCommand, h0]
    · have hb := execBody_propagated_none I ⟨Sink.capture, Sink.capture⟩ c st.ns
        st.realOut st.realErr h2 h3 h4 h5 h1
      simp [executeCommand, h0, hb]
  · intro e h0 h1 h2 hcls
    have hs : e.cls ≠ ExcClass.synErr := by rw [hcls]; decide
    have hbx : e.cls ≠ ExcClass.excBase := by rw [hcls]; decide
    simp [executeCommand, h0, execBody, h1, h2, hs, hbx, routeCap, routeReal]

/-- C3 counterexample: the command `raise SystemExit` fails the
expression compile, runs as a statement, and raises SystemExit, which
`except Exception` does not catch: the exception escapes
execute_command (the finally clause still restores the streams on the
way out), so a failing command can terminate the hosting process. -/
theorem claim3_counterexample :
    (executeCommand demoInterp startState cRaiseExit).2.propagated = some sExit ∧
    (executeCommand demoInterp startState cRaiseExit).1.streams
        = startState.streams := by
  exact ⟨rfl, rfl⟩

/-- C3 witness: for 1/0 every raised exception lies inside the
Exception hierarchy, so nothing escapes and the ZeroDivisionError trace
lands on the captured standard error. -/
theorem claim3_witness :
    (executeCommand demoInterp startState cDiv).2.propagated = none ∧
    (executeCommand demoInterp startState cDiv).2.stderrCapture = excFmt sZero := by
  refine ⟨?_, ?_⟩
  · exact (claim3_thm demoInterp startState cDiv).1 (by decide) (by decide)
      (by decide) (by decide) (by decide)
  · exact ((claim3_thm demoInterp startState cDiv).2 sZero (by decide)
      rfl rfl rfl).1
